import Mathlib

/-
Shallow embedding of the document-intelligence pipeline of the VitalEvent
backend (backend/src/services/ai/ocr.js, the OpenAI service, the AI service
registry and the AI routes). Strings are modelled as Lean strings,
JavaScript numbers as exact rationals, JavaScript exceptions as Except
values, and the module-level service variables as explicit state records.
-/

/-- Character class of the JavaScript regular-expression class backslash-s,
which coincides with the character set stripped by String.prototype.trim:
space, tab, line feed, carriage return, vertical tab, form feed, no-break
space, Ogham space mark, the U+2000 to U+200A range, line separator,
paragraph separator, narrow no-break space, medium mathematical space,
ideographic space and the byte-order mark. -/
def isJsWs (c : Char) : Bool :=
  let n := c.toNat
  n = 0x20 || n = 0x09 || n = 0x0a || n = 0x0d || n = 0x0b || n = 0x0c ||
  n = 0xa0 || n = 0x1680 || (0x2000 ≤ n && n ≤ 0x200a) || n = 0x2028 ||
  n = 0x2029 || n = 0x202f || n = 0x205f || n = 0x3000 || n = 0xfeff

/-- One global pass of the replacement of every run of one or more
whitespace characters by a single space, as in the source line
text.replace of backslash-s-plus by a space: the first character of each
whitespace run emits one space, the rest of the run is skipped. The Boolean
flag records whether the previous character was whitespace. -/
def collapseWsAux : Bool → List Char → List Char
  | _, [] => []
  | prevWs, c :: rest =>
    if isJsWs c then
      if prevWs then collapseWsAux true rest
      else ' ' :: collapseWsAux true rest
    else c :: collapseWsAux false rest

/-- The whitespace-collapsing replace applied to a whole character list. -/
def collapseWs (l : List Char) : List Char := collapseWsAux false l

/-- Index of the last line-feed character inside the maximal leading
whitespace run of the list, if any: this is exactly where the greedy match
of backslash-s-star followed by a line feed ends after backtracking. The
index is returned with its bound. -/
def lastNlIdx : (l : List Char) → Option (Fin l.length)
  | [] => none
  | c :: rest =>
    if isJsWs c then
      match lastNlIdx rest with
      | some k => some ⟨k.val + 1, Nat.succ_lt_succ k.isLt⟩
      | none => if c = '\n' then some ⟨0, Nat.succ_pos _⟩ else none
    else none

/-- One global pass of the replacement of a line feed, any whitespace, and
a line feed by a single line feed, as in the source line text.replace of
the empty-line pattern: scan left to right, at each line feed attempt the
greedy match, emit the replacement, and continue scanning after the match;
a position with no match emits its character unchanged. -/
def stripEmptyLines (l : List Char) : List Char :=
  match l with
  | [] => []
  | c :: rest =>
    if c = '\n' then
      match lastNlIdx rest with
      | some k => '\n' :: stripEmptyLines (rest.drop (k.val + 1))
      | none => c :: stripEmptyLines rest
    else c :: stripEmptyLines rest
termination_by l.length
decreasing_by
  · have hk := k.isLt
    simp [List.length_drop]
    omega
  · simp
  · simp

/-- String.prototype.trim: drop the JavaScript whitespace characters from
both ends of the list. -/
def jsTrim (l : List Char) : List Char :=
  ((l.dropWhile isJsWs).reverse.dropWhile isJsWs).reverse

/-- OCRService.cleanExtractedText: a falsy (empty) string returns the empty
string; otherwise collapse whitespace runs to single spaces, remove empty
lines, and trim both ends. -/
def cleanExtractedText (s : String) : String :=
  if s = "" then ""
  else String.mk (jsTrim (stripEmptyLines (collapseWs s.data)))

/-- One recognized word of the OCR result data: its text and its
model-reported confidence score. JavaScript numbers are modelled as exact
rationals. -/
structure OCRWord where
  text : String
  confidence : ℚ
deriving DecidableEq

/-- The JavaScript expression Math.round(x * 100) / 100: round to two
decimal places, halves towards positive infinity. -/
def jsRound2 (q : ℚ) : ℚ := (⌊q * 100 + 1 / 2⌋ : ℚ) / 100

/-- Shape of the object returned by OCRService.analyzeConfidence. The
totalWords field is absent (none) on the empty-input branch of the
source. -/
structure ConfidenceAnalysis where
  average : ℚ
  min : ℚ
  max : ℚ
  lowConfidenceWords : List (String × ℚ)
  quality : String
  totalWords : Option Nat
deriving DecidableEq

/-- OCRService.analyzeConfidence, translated from the source: the empty
score list gives the unknown bucket with zeroes; otherwise average is the
arithmetic mean of the scores, min and max are folds of Math.min and
Math.max, words with confidence below 60 are collected, the quality label
is chosen by the source chain of comparisons on the unrounded average, and
average, min and max are rounded to two decimals in the returned object. -/
def analyzeConfidence (words : List OCRWord) : ConfidenceAnalysis :=
  let confidenceScores := words.map OCRWord.confidence
  match confidenceScores with
  | [] =>
    { average := 0, min := 0, max := 0, lowConfidenceWords := [],
      quality := "unknown", totalWords := none }
  | c :: cs =>
    let average := (c :: cs).sum / ((c :: cs).length : ℚ)
    let mn := cs.foldl Min.min c
    let mx := cs.foldl Max.max c
    let lowConfidenceWords :=
      (words.filter (fun w => decide (w.confidence < 60))).map
        (fun w => (w.text, w.confidence))
    let quality0 := "excellent"
    let quality1 := if average < 80 then "good" else quality0
    let quality2 := if average < 60 then "fair" else quality1
    let quality3 := if average < 40 then "poor" else quality2
    { average := jsRound2 average, min := jsRound2 mn, max := jsRound2 mx,
      lowConfidenceWords := lowConfidenceWords, quality := quality3,
      totalWords := some words.length }

/-- Predicate of lists with no two adjacent whitespace characters. -/
def NoAdjWs : List Char → Prop :=
  List.Chain' (fun a b => ¬(isJsWs a = true ∧ isJsWs b = true))

/-- Normal form reached by the whitespace-collapsing replace: every
whitespace character is a plain space, and no two whitespace characters are
adjacent. -/
def CleanChars (l : List Char) : Prop :=
  (∀ c ∈ l, isJsWs c = true → c = ' ') ∧ NoAdjWs l

/-- Result object of the four OpenAIService parse functions. On success the
data field carries the parsed JSON value and, for document analysis only,
the documentType field is set; on failure the error and rawResponse fields
are set instead. The timestamp string is passed in by the caller of the
model (new Date().toISOString() in the source). -/
structure GAEParseResult (α : Type) where
  success : Bool
  data : Option α := none
  documentType : Option String := none
  error : Option String := none
  rawResponse : Option String := none
  timestamp : String
deriving DecidableEq

/-- The failure object every parse function returns when JSON.parse throws:
success false, the fixed error message, and the raw model response retained
verbatim. -/
def gaeParseFailure (α : Type) (now raw : String) : GAEParseResult α :=
  { success := false, error := some "Failed to parse AI response",
    rawResponse := some raw, timestamp := now }

/-- OpenAIService.parseDocumentAnalysis: JSON.parse the response inside a
try block; the catch converts the parse exception into the failure object.
JSON.parse is abstracted as any fallible parser. -/
def parseDocumentAnalysis {α : Type} (jsonParse : String → Except String α)
    (now analysis documentType : String) : GAEParseResult α :=
  match jsonParse analysis with
  | Except.ok parsed =>
    { success := true, data := some parsed,
      documentType := some documentType, timestamp := now }
  | Except.error _ => gaeParseFailure α now analysis

/-- OpenAIService.parseFraudDetection: same try-parse-catch shape without
the documentType field. -/
def parseFraudDetection {α : Type} (jsonParse : String → Except String α)
    (now fraudAnalysis : String) : GAEParseResult α :=
  match jsonParse fraudAnalysis with
  | Except.ok parsed =>
    { success := true, data := some parsed, timestamp := now }
  | Except.error _ => gaeParseFailure α now fraudAnalysis

/-- OpenAIService.parseClassification: same try-parse-catch shape. -/
def parseClassification {α : Type} (jsonParse : String → Except String α)
    (now classification : String) : GAEParseResult α :=
  match jsonParse classification with
  | Except.ok parsed =>
    { success := true, data := some parsed, timestamp := now }
  | Except.error _ => gaeParseFailure α now classification

/-- OpenAIService.parseValidation: same try-parse-catch shape. -/
def parseValidation {α : Type} (jsonParse : String → Except String α)
    (now validation : String) : GAEParseResult α :=
  match jsonParse validation with
  | Except.ok parsed =>
    { success := true, data := some parsed, timestamp := now }
  | Except.error _ => gaeParseFailure α now validation

/-- OpenAIService.analyzeDocument. clientSet models whether this.client is
non-null; chat models the outcome of the model call (either its thrown
transport error or the response content string). The source wraps the body
in a try whose catch logs the error and rethrows it, so a thrown error
passes through unchanged and only the parse step can produce a failure
object. -/
def analyzeDocument {α : Type} (clientSet : Bool) (chat : Except String String)
    (jsonParse : String → Except String α) (now documentType : String) :
    Except String (GAEParseResult α) :=
  if !clientSet then Except.error "OpenAI client not initialized"
  else
    match chat with
    | Except.error e => Except.error e
    | Except.ok analysis =>
      Except.ok (parseDocumentAnalysis jsonParse now analysis documentType)

/-- OpenAIService.detectFraud: same catch-log-rethrow shape. -/
def detectFraud {α : Type} (clientSet : Bool) (chat : Except String String)
    (jsonParse : String → Except String α) (now : String) :
    Except String (GAEParseResult α) :=
  if !clientSet then Except.error "OpenAI client not initialized"
  else
    match chat with
    | Except.error e => Except.error e
    | Except.ok fraudAnalysis =>
      Except.ok (parseFraudDetection jsonParse now fraudAnalysis)

/-- OpenAIService.classifyRecord: same catch-log-rethrow shape. -/
def classifyRecord {α : Type} (clientSet : Bool) (chat : Except String String)
    (jsonParse : String → Except String α) (now : String) :
    Except String (GAEParseResult α) :=
  if !clientSet then Except.error "OpenAI client not initialized"
  else
    match chat with
    | Except.error e => Except.error e
    | Except.ok classification =>
      Except.ok (parseClassification jsonParse now classification)

/-- OpenAIService.validateData: same catch-log-rethrow shape. -/
def validateData {α : Type} (clientSet : Bool) (chat : Except String String)
    (jsonParse : String → Except String α) (now : String) :
    Except String (GAEParseResult α) :=
  if !clientSet then Except.error "OpenAI client not initialized"
  else
    match chat with
    | Except.error e => Except.error e
    | Except.ok validation =>
      Except.ok (parseValidation jsonParse now validation)

/-- The six module-level service variables of the AI service registry
(services/ai/index.js); true means the variable holds an instance, false
that it is null. -/
structure AIServices where
  openai : Bool
  ocr : Bool
  documentAnalysis : Bool
  fraudDetection : Bool
  classification : Bool
  verification : Bool
deriving DecidableEq

/-- Initial registry state: all module-level variables are null. -/
def emptyAIServices : AIServices :=
  { openai := false, ocr := false, documentAnalysis := false,
    fraudDetection := false, classification := false, verification := false }

/-- The environment flags read by initializeAIServices; each Boolean is the
truth of the corresponding strict string comparison in the source (or the
truthiness of OPENAI_API_KEY). -/
structure AIEnv where
  enableAIFeatures : Bool
  openaiApiKey : Bool
  enableOcrProcessing : Bool
  enableDocumentAnalysis : Bool
  enableFraudDetection : Bool
  enableAutomaticClassification : Bool
deriving DecidableEq

/-- Whether each construction or initialization call performed by
initializeAIServices throws. The wrapper-service constructors
(DocumentAnalysisService, FraudDetectionService, ClassificationService,
VerificationService) are not under src, so their possible failure is kept
abstract as an outcome flag. -/
structure InitOutcomes where
  openaiInitThrows : Bool
  ocrInitThrows : Bool
  documentAnalysisCtorThrows : Bool
  fraudDetectionCtorThrows : Bool
  classificationCtorThrows : Bool
  verificationCtorThrows : Bool
deriving DecidableEq

/-- initializeAIServices from services/ai/index.js, as a state transformer
on the module-level variables. The first component is true when the call
ran to completion and false when it threw: the whole body sits in one try
whose catch logs and rethrows, so the first throw aborts the rest. Each
engine variable is assigned before its initialize call is awaited, so a
variable can stay set even though the call then throws. -/
def initializeAIServices (env : AIEnv) (oc : InitOutcomes) (st : AIServices) :
    Bool × AIServices :=
  if !env.enableAIFeatures then (true, st)
  else
    let st1 := if env.openaiApiKey then { st with openai := true } else st
    if env.openaiApiKey && oc.openaiInitThrows then (false, st1)
    else
      let st2 := if env.enableOcrProcessing then { st1 with ocr := true } else st1
      if env.enableOcrProcessing && oc.ocrInitThrows then (false, st2)
      else
        if env.enableDocumentAnalysis && oc.documentAnalysisCtorThrows then (false, st2)
        else
          let st3 := if env.enableDocumentAnalysis then { st2 with documentAnalysis := true } else st2
          if env.enableFraudDetection && oc.fraudDetectionCtorThrows then (false, st3)
          else
            let st4 := if env.enableFraudDetection then { st3 with fraudDetection := true } else st3
            if env.enableAutomaticClassification && oc.classificationCtorThrows then (false, st4)
            else
              let st5 := if env.enableAutomaticClassification then { st4 with classification := true } else st4
              if oc.verificationCtorThrows then (false, st5)
              else (true, { st5 with verification := true })

/-- isAIFeatureEnabled from services/ai/index.js: the feature-flags object
lookup, with an unknown key giving undefined and hence false. -/
def isAIFeatureEnabled (st : AIServices) (feature : String) : Bool :=
  if feature = "openai" then st.openai
  else if feature = "ocr" then st.ocr
  else if feature = "documentAnalysis" then st.documentAnalysis
  else if feature = "fraudDetection" then st.fraudDetection
  else if feature = "classification" then st.classification
  else if feature = "verification" then st.verification
  else false

/-- Per-service entry of a health report. -/
structure ServiceStatus where
  status : String
  error : Option String := none
deriving DecidableEq

/-- The health object assembled by checkAIServicesHealth and by the GET
health route; a service key absent from the object is none. -/
structure HealthReport where
  status : String
  openai : Option ServiceStatus := none
  ocr : Option ServiceStatus := none
  documentAnalysis : Option ServiceStatus := none
  fraudDetection : Option ServiceStatus := none
  classification : Option ServiceStatus := none
  verification : Option ServiceStatus := none
deriving DecidableEq

/-- checkAIServicesHealth from services/ai/index.js. Each probe argument is
the outcome of the corresponding healthCheck() call: a thrown error or the
returned Boolean. The source awaits each probe inside its own try but
discards the returned Boolean, so only a thrown probe marks the service
unhealthy and degrades the aggregate; the remaining services are reported
from mere instance presence. -/
def checkAIServicesHealth (st : AIServices)
    (openaiProbe ocrProbe : Except String Bool) : HealthReport :=
  let o : Option ServiceStatus × Bool :=
    if st.openai then
      match openaiProbe with
      | Except.ok _ => (some { status := "healthy" }, false)
      | Except.error e => (some { status := "unhealthy", error := some e }, true)
    else (none, false)
  let c : Option ServiceStatus × Bool :=
    if st.ocr then
      match ocrProbe with
      | Except.ok _ => (some { status := "healthy" }, false)
      | Except.error e => (some { status := "unhealthy", error := some e }, true)
    else (none, false)
  { status := if o.2 || c.2 then "degraded" else "healthy",
    openai := o.1, ocr := c.1,
    documentAnalysis := some { status := if st.documentAnalysis then "healthy" else "disabled" },
    fraudDetection := some { status := if st.fraudDetection then "healthy" else "disabled" },
    classification := some { status := if st.classification then "healthy" else "disabled" },
    verification := some { status := if st.verification then "healthy" else "disabled" } }

/-- The GET health route handler of the AI routes file. Unlike
checkAIServicesHealth it binds each probe result and marks the service
unhealthy (degrading the aggregate) when the probe either returns false or
throws. -/
def healthRouteHandler (st : AIServices)
    (openaiProbe ocrProbe : Except String Bool) : HealthReport :=
  let o : Option ServiceStatus × Bool :=
    if isAIFeatureEnabled st "openai" then
      match openaiProbe with
      | Except.ok isHealthy =>
        (some { status := if isHealthy then "healthy" else "unhealthy" }, !isHealthy)
      | Except.error e => (some { status := "unhealthy", error := some e }, true)
    else (none, false)
  let c : Option ServiceStatus × Bool :=
    if isAIFeatureEnabled st "ocr" then
      match ocrProbe with
      | Except.ok isHealthy =>
        (some { status := if isHealthy then "healthy" else "unhealthy" }, !isHealthy)
      | Except.error e => (some { status := "unhealthy", error := some e }, true)
    else (none, false)
  { status := if o.2 || c.2 then "degraded" else "healthy",
    openai := o.1, ocr := c.1 }

/-- OCRService.healthCheck: false when the service is not initialized or
the worker is gone; otherwise the truthiness of the test recognition call,
with any thrown error caught and reported as false. It never throws. -/
def ocrHealthCheck (isInitialized workerPresent : Bool)
    (recognize : Except String Bool) : Bool :=
  if !isInitialized || !workerPresent then false
  else
    match recognize with
    | Except.ok r => r
    | Except.error _ => false

/-- Mutable instance state of OCRService: the worker with its currently
loaded language model (none when the worker is null), the ready flag, the
fixed supported-language list and the stored default language, which
getServiceInfo reports as currentLanguage. -/
structure OCRState where
  workerLang : Option String
  isInitialized : Bool
  supportedLanguages : List String
  defaultLanguage : String
deriving DecidableEq

/-- The OCRService constructor state. -/
def ocrServiceStart : OCRState :=
  { workerLang := none, isInitialized := false,
    supportedLanguages := ["eng", "amh"], defaultLanguage := "eng" }

/-- The data field of a worker recognition result. -/
structure RecognizeData where
  text : String
  confidence : ℚ
  words : List OCRWord
deriving DecidableEq

/-- Result envelope of OCRService.extractTextFromImage. -/
structure ExtractResult where
  success : Bool
  text : Option String := none
  confidence : Option ℚ := none
  confidenceAnalysis : Option ConfidenceAnalysis := none
  language : Option String := none
  error : Option String := none
deriving DecidableEq

/-- Shared tail of extractTextFromImage: run the recognition (whose outcome
is abstracted as a thrown error or result data), clean the text and derive
the confidence analysis; a thrown error is caught and returned as a failure
object, with the state as mutated so far. -/
def finishExtract (st : OCRState) (language : String)
    (recognize : Except String RecognizeData) : ExtractResult × OCRState :=
  match recognize with
  | Except.error e => ({ success := false, error := some e }, st)
  | Except.ok d =>
    ({ success := true, text := some (cleanExtractedText d.text),
       confidence := some d.confidence,
       confidenceAnalysis := some (analyzeConfidence d.words),
       language := some language }, st)

/-- OCRService.extractTextFromImage as a state transformer. The whole body
is in a try whose catch returns a failure object, so nothing escapes as an
exception. When the requested language differs from the stored default
language the worker model is reloaded (mutating the worker state), but the
defaultLanguage field itself is never written by this method. -/
def extractTextFromImage (st : OCRState) (fileExists : Bool)
    (optLanguage : Option String) (recognize : Except String RecognizeData) :
    ExtractResult × OCRState :=
  if !st.isInitialized then
    ({ success := false, error := some "OCR service not initialized" }, st)
  else if !fileExists then
    ({ success := false, error := some "ENOENT: no such file or directory" }, st)
  else
    let language := optLanguage.getD st.defaultLanguage
    if language ≠ st.defaultLanguage then
      match st.workerLang with
      | none =>
        ({ success := false, error := some "worker is null" }, st)
      | some _ =>
        finishExtract { st with workerLang := some language } language recognize
    else finishExtract st language recognize

/-- The object returned by OCRService.getServiceInfo (the fields the claims
mention). -/
structure OCRServiceInfo where
  name : String
  languages : List String
  currentLanguage : String
  status : String
deriving DecidableEq

/-- OCRService.getServiceInfo: reports the stored default language as the
current language. -/
def getServiceInfo (st : OCRState) : OCRServiceInfo :=
  { name := "OCR Service", languages := st.supportedLanguages,
    currentLanguage := st.defaultLanguage,
    status := if st.isInitialized then "active" else "inactive" }

/-- OCRService.changeLanguage: throws (rethrown by its catch) on an
unsupported language or a null worker; otherwise reloads the worker model
and updates the stored default language. -/
def changeLanguage (st : OCRState) (language : String) :
    Except String OCRState :=
  if !(st.supportedLanguages.contains language) then
    Except.error ("Language " ++ language ++ " not supported")
  else
    match st.workerLang with
    | none => Except.error "worker is null"
    | some _ =>
      Except.ok { st with workerLang := some language, defaultLanguage := language }

/-- One uploaded file of the batch-process route. -/
structure BatchFile where
  path : String
  originalname : String
deriving DecidableEq

/-- The per-file result object produced by the OCR or analysis call inside
the batch loop; only its success flag is consulted by the loop. -/
structure BatchItemResult where
  success : Bool
  error : Option String := none
deriving DecidableEq

/-- The result field of a batch entry: either the call result or the
fallback object with the Processing failed error that replaces an undefined
result. -/
inductive BatchItemValue where
  | res (r : BatchItemResult)
  | processingFailed
deriving DecidableEq

/-- One entry pushed into the results array of the batch-process route. -/
structure BatchEntry where
  filename : String
  success : Bool
  result : Option BatchItemValue := none
  error : Option String := none
deriving DecidableEq

/-- Outcome of the switch body of one batch iteration: the iteration threw,
left result undefined (feature disabled), or produced a result object. -/
inductive BatchStep where
  | threw (msg : String)
  | noResult
  | got (r : BatchItemResult)
deriving DecidableEq

/-- The switch statement of one batch-process iteration: dispatch on the
process type, guard on the feature flags, and call the per-file processing
(whose outcome, including any thrown error, is abstracted as a function of
the file). -/
def batchItemStep (st : AIServices) (processType : String)
    (ocrCall analyzeCall : BatchFile → Except String BatchItemResult)
    (file : BatchFile) : BatchStep :=
  if processType = "ocr" then
    if isAIFeatureEnabled st "ocr" then
      match ocrCall file with
      | Except.ok r => BatchStep.got r
      | Except.error m => BatchStep.threw m
    else BatchStep.noResult
  else if processType = "analysis" then
    if isAIFeatureEnabled st "documentAnalysis" then
      match analyzeCall file with
      | Except.ok r => BatchStep.got r
      | Except.error m => BatchStep.threw m
    else BatchStep.noResult
  else BatchStep.got { success := false, error := some "Unknown process type" }

/-- One iteration of the batch loop: the per-item try pushes a normal entry
on completion and a caught-error entry when the iteration threw, so every
file contributes exactly one entry whatever happens. -/
def batchEntryFor (st : AIServices) (processType : String)
    (ocrCall analyzeCall : BatchFile → Except String BatchItemResult)
    (file : BatchFile) : BatchEntry :=
  match batchItemStep st processType ocrCall analyzeCall file with
  | BatchStep.threw m =>
    { filename := file.originalname, success := false, error := some m }
  | BatchStep.noResult =>
    { filename := file.originalname, success := false,
      result := some BatchItemValue.processingFailed }
  | BatchStep.got r =>
    { filename := file.originalname, success := r.success,
      result := some (BatchItemValue.res r) }

/-- Success payload of the batch-process route. -/
structure BatchPayload where
  results : List BatchEntry
  totalFiles : Nat
  processType : String
deriving DecidableEq

/-- Response of the batch-process route: the 400 Bad Request branch or the
success payload. -/
inductive BatchResponse where
  | badRequest (message : String)
  | ok (payload : BatchPayload)
deriving DecidableEq

/-- The POST batch-process route handler: reject an empty upload list with
400, otherwise run the sequential loop and answer with one entry per file
in input order. -/
def batchProcessHandler (st : AIServices) (processType : String)
    (ocrCall analyzeCall : BatchFile → Except String BatchItemResult)
    (files : List BatchFile) : BatchResponse :=
  if files.isEmpty then BatchResponse.badRequest "No documents provided"
  else
    BatchResponse.ok
      { results := files.map (batchEntryFor st processType ocrCall analyzeCall),
        totalFiles := files.length, processType := processType }

/-- Left half of String.prototype.trim: drop leading whitespace. -/
def jsTrimStart (l : List Char) : List Char := l.dropWhile isJsWs

/-- Right half of String.prototype.trim: drop trailing whitespace. -/
def jsTrimEnd (l : List Char) : List Char :=
  (l.reverse.dropWhile isJsWs).reverse

theorem jsTrim_eq (l : List Char) : jsTrim l = jsTrimEnd (jsTrimStart l) := rfl

theorem stripEmptyLines_eq_self {l : List Char} (h : '\n' ∉ l) :
    stripEmptyLines l = l := by
  induction l with
  | nil => simp [stripEmptyLines]
  | cons c rest ih =>
    have hc : ¬(c = '\n') := by
      intro he
      exact h (he ▸ List.mem_cons_self c rest)
    have hrest : '\n' ∉ rest := fun hm => h (List.mem_cons_of_mem c hm)
    simp only [stripEmptyLines, hc, if_false]
    rw [ih hrest]

theorem collapseWsAux_not_nl (b : Bool) (l : List Char) :
    '\n' ∉ collapseWsAux b l := by
  induction l generalizing b with
  | nil => simp [collapseWsAux]
  | cons c rest ih =>
    cases hws : isJsWs c with
    | true =>
      cases b with
      | true =>
        simpa [collapseWsAux, hws] using ih true
      | false =>
        simp only [collapseWsAux, hws, if_true, Bool.false_eq_true, if_false]
        intro hmem
        rcases List.mem_cons.mp hmem with he | hmem2
        · exact absurd he.symm (by decide)
        · exact ih true hmem2
    | false =>
      have hc : ¬('\n' = c) := by
        intro he
        rw [← he] at hws
        exact absurd hws (by decide)
      simp only [collapseWsAux, hws, Bool.false_eq_true, if_false]
      intro hmem
      rcases List.mem_cons.mp hmem with he | hmem2
      · exact hc he
      · exact ih false hmem2

theorem collapseWs_not_nl (l : List Char) : '\n' ∉ collapseWs l :=
  collapseWsAux_not_nl false l

theorem collapseWsAux_clean (l : List Char) (b : Bool) :
    (∀ c ∈ collapseWsAux b l, isJsWs c = true → c = ' ') ∧
    NoAdjWs (collapseWsAux b l) ∧
    (b = true → ∀ d, (collapseWsAux b l).head? = some d → isJsWs d = false) := by
  induction l generalizing b with
  | nil =>
    refine ⟨by simp [collapseWsAux], by simp [collapseWsAux, NoAdjWs], ?_⟩
    intro _ d hd
    simp [collapseWsAux] at hd
  | cons c rest ih =>
    cases hws : isJsWs c with
    | true =>
      cases b with
      | true =>
        have hout : collapseWsAux true (c :: rest) = collapseWsAux true rest := by
          simp [collapseWsAux, hws]
        rw [hout]
        exact ih true
      | false =>
        obtain ⟨ihMem, ihChain, ihHead⟩ := ih true
        have hout : collapseWsAux false (c :: rest) = ' ' :: collapseWsAux true rest := by
          simp [collapseWsAux, hws]
        rw [hout]
        refine ⟨?_, ?_, ?_⟩
        · intro x hx hxw
          rcases List.mem_cons.mp hx with rfl | hx2
          · rfl
          · exact ihMem x hx2 hxw
        · rw [NoAdjWs, List.chain'_cons']
          refine ⟨?_, ihChain⟩
          intro y hy
          have hyw := ihHead rfl y hy
          intro hcontra
          rw [hyw] at hcontra
          exact absurd hcontra.2 (by decide)
        · intro hb
          cases hb
    | false =>
      obtain ⟨ihMem, ihChain, ihHead⟩ := ih false
      have hout : collapseWsAux b (c :: rest) = c :: collapseWsAux false rest := by
        cases b <;> simp [collapseWsAux, hws]
      rw [hout]
      refine ⟨?_, ?_, ?_⟩
      · intro x hx hxw
        rcases List.mem_cons.mp hx with rfl | hx2
        · rw [hws] at hxw
          cases hxw
        · exact ihMem x hx2 hxw
      · rw [NoAdjWs, List.chain'_cons']
        refine ⟨?_, ihChain⟩
        intro y _ hcontra
        rw [hws] at hcontra
        cases hcontra.1
      · intro _ d hd
        simp only [List.head?_cons, Option.some.injEq] at hd
        rw [← hd]
        exact hws

theorem cleanChars_collapseWs (l : List Char) : CleanChars (collapseWs l) :=
  ⟨(collapseWsAux_clean l false).1, (collapseWsAux_clean l false).2.1⟩

theorem noAdjWs_dropWhile {l : List Char} (h : NoAdjWs l) :
    NoAdjWs (l.dropWhile isJsWs) := by
  induction l with
  | nil => simpa using h
  | cons c rest ih =>
    rw [List.dropWhile_cons]
    cases hws : isJsWs c with
    | true =>
      simp only [hws, if_true]
      exact ih (List.Chain'.tail h)
    | false =>
      simp only [hws, Bool.false_eq_true, if_false]
      exact h

theorem cleanChars_dropWhile {l : List Char} (h : CleanChars l) :
    CleanChars (l.dropWhile isJsWs) := by
  refine ⟨?_, noAdjWs_dropWhile h.2⟩
  intro c hc
  exact h.1 c ((List.dropWhile_sublist isJsWs).subset hc)

theorem cleanChars_reverse {l : List Char} (h : CleanChars l) :
    CleanChars l.reverse := by
  refine ⟨?_, ?_⟩
  · intro c hc
    exact h.1 c (List.mem_reverse.mp hc)
  · rw [NoAdjWs, List.chain'_reverse]
    exact List.Chain'.imp (fun a b hab hc => hab ⟨hc.2, hc.1⟩) h.2

theorem cleanChars_jsTrim {l : List Char} (h : CleanChars l) :
    CleanChars (jsTrim l) :=
  cleanChars_reverse (cleanChars_dropWhile (cleanChars_reverse (cleanChars_dropWhile h)))

theorem collapseWsAux_eq_self (l : List Char) (b : Bool)
    (hcl : CleanChars l)
    (hhead : b = true → ∀ d, l.head? = some d → isJsWs d = false) :
    collapseWsAux b l = l := by
  induction l generalizing b with
  | nil => cases b <;> rfl
  | cons c rest ih =>
    obtain ⟨hmem, hchain⟩ := hcl
    have hclRest : CleanChars rest :=
      ⟨fun x hx => hmem x (List.mem_cons_of_mem c hx), List.Chain'.tail hchain⟩
    cases hws : isJsWs c with
    | false =>
      have hout : collapseWsAux b (c :: rest) = c :: collapseWsAux false rest := by
        cases b <;> simp [collapseWsAux, hws]
      rw [hout, ih false hclRest (fun hb => by cases hb)]
    | true =>
      have hb : b = false := by
        cases b with
        | false => rfl
        | true =>
          have := hhead rfl c (by simp)
          rw [hws] at this
          cases this
      subst hb
      have hc : c = ' ' := hmem c (List.mem_cons_self c rest) hws
      have hout : collapseWsAux false (c :: rest) = ' ' :: collapseWsAux true rest := by
        simp [collapseWsAux, hws]
      have hrestHead : ∀ d, rest.head? = some d → isJsWs d = false := by
        intro d hd
        have hpair := (List.chain'_cons'.mp hchain).1 d hd
        cases hdw : isJsWs d with
        | false => rfl
        | true => exact absurd ⟨hws, hdw⟩ hpair
      rw [hout, ih true hclRest (fun _ => hrestHead), hc]

theorem collapseWs_eq_self {l : List Char} (h : CleanChars l) :
    collapseWs l = l :=
  collapseWsAux_eq_self l false h (fun hb => by cases hb)

theorem dropWhile_eq_cons_head_false {p : Char → Bool} {l t : List Char}
    {c : Char} (h : l.dropWhile p = c :: t) : p c = false := by
  induction l with
  | nil => simp at h
  | cons a rest ih =>
    rw [List.dropWhile_cons] at h
    cases hp : p a with
    | true =>
      rw [hp, if_pos rfl] at h
      exact ih h
    | false =>
      rw [hp] at h
      simp only [Bool.false_eq_true, if_false, List.cons.injEq] at h
      rw [← h.1]
      exact hp

theorem jsTrimStart_idem (l : List Char) :
    jsTrimStart (jsTrimStart l) = jsTrimStart l := by
  cases h : jsTrimStart l with
  | nil => simp [jsTrimStart]
  | cons c t =>
    have hc : isJsWs c = false := dropWhile_eq_cons_head_false h
    rw [jsTrimStart, List.dropWhile_cons_of_neg]
    rw [hc]
    simp

theorem jsTrimEnd_append (l : List Char) :
    ∃ t, l = jsTrimEnd l ++ t := by
  refine ⟨(l.reverse.takeWhile isJsWs).reverse, ?_⟩
  have h1 : l.reverse.takeWhile isJsWs ++ l.reverse.dropWhile isJsWs = l.reverse :=
    List.takeWhile_append_dropWhile isJsWs l.reverse
  calc l = l.reverse.reverse := (List.reverse_reverse l).symm
    _ = (l.reverse.takeWhile isJsWs ++ l.reverse.dropWhile isJsWs).reverse := by rw [h1]
    _ = (l.reverse.dropWhile isJsWs).reverse ++ (l.reverse.takeWhile isJsWs).reverse :=
        List.reverse_append _ _
    _ = jsTrimEnd l ++ (l.reverse.takeWhile isJsWs).reverse := rfl

theorem jsTrimStart_jsTrimEnd_of_trimmed (l : List Char) :
    jsTrimStart (jsTrimEnd (jsTrimStart l)) = jsTrimEnd (jsTrimStart l) := by
  cases h : jsTrimEnd (jsTrimStart l) with
  | nil => simp [jsTrimStart]
  | cons c t =>
    obtain ⟨tail2, hu⟩ := jsTrimEnd_append (jsTrimStart l)
    rw [h, List.cons_append] at hu
    have hc : isJsWs c = false := by
      have hsplit : l.dropWhile isJsWs = c :: (t ++ tail2) := hu
      exact dropWhile_eq_cons_head_false hsplit
    rw [jsTrimStart, List.dropWhile_cons_of_neg]
    rw [hc]
    simp

theorem jsTrimEnd_idem (l : List Char) :
    jsTrimEnd (jsTrimEnd l) = jsTrimEnd l := by
  show ((l.reverse.dropWhile isJsWs).reverse.reverse.dropWhile isJsWs).reverse
      = (l.reverse.dropWhile isJsWs).reverse
  rw [List.reverse_reverse]
  have := jsTrimStart_idem l.reverse
  rw [jsTrimStart, jsTrimStart] at this
  rw [this]

theorem jsTrim_idem (l : List Char) : jsTrim (jsTrim l) = jsTrim l := by
  rw [jsTrim_eq, jsTrim_eq, jsTrimStart_jsTrimEnd_of_trimmed, jsTrimEnd_idem]

theorem cleanExtractedText_eq (s : String) :
    cleanExtractedText s = String.mk (jsTrim (collapseWs s.data)) := by
  by_cases hs : s = ""
  · subst hs
    rfl
  · rw [cleanExtractedText, if_neg hs,
      stripEmptyLines_eq_self (collapseWs_not_nl s.data)]

/-- C7: cleanExtractedText is idempotent on every input string, and on the
string of two spaces, Hello, three spaces, World, two spaces and three line
feeds it returns the string Hello space World. -/
theorem cleanExtractedText_idem_and_example :
    (∀ s : String, cleanExtractedText (cleanExtractedText s) = cleanExtractedText s) ∧
    cleanExtractedText "  Hello   World  \n\n\n" = "Hello World" := by
  constructor
  · intro s
    have hdata : (cleanExtractedText s).data = jsTrim (collapseWs s.data) := by
      rw [cleanExtractedText_eq]
    rw [cleanExtractedText_eq (cleanExtractedText s), hdata,
      cleanExtractedText_eq s]
    have h3 : CleanChars (jsTrim (collapseWs s.data)) :=
      cleanChars_jsTrim (cleanChars_collapseWs s.data)
    rw [collapseWs_eq_self h3, jsTrim_idem]
  · rw [cleanExtractedText_eq]
    decide

theorem foldl_min_spec (c : ℚ) (cs : List ℚ) :
    cs.foldl Min.min c ∈ c :: cs ∧ ∀ x ∈ c :: cs, cs.foldl Min.min c ≤ x := by
  induction cs generalizing c with
  | nil => simp
  | cons d cs ih =>
    obtain ⟨ihm, ihle⟩ := ih (min c d)
    have hfold : (d :: cs).foldl Min.min c = cs.foldl Min.min (min c d) := rfl
    constructor
    · rw [hfold]
      rcases List.mem_cons.mp ihm with h | h
      · rcases min_cases c d with ⟨he, _⟩ | ⟨he, _⟩
        · rw [h, he]
          exact List.mem_cons_self _ _
        · rw [h, he]
          exact List.mem_cons_of_mem _ (List.mem_cons_self _ _)
      · exact List.mem_cons_of_mem _ (List.mem_cons_of_mem _ h)
    · intro x hx
      rw [hfold]
      rcases List.mem_cons.mp hx with rfl | hx2
      · exact le_trans (ihle _ (List.mem_cons_self _ _)) (min_le_left _ _)
      · rcases List.mem_cons.mp hx2 with rfl | hx3
        · exact le_trans (ihle _ (List.mem_cons_self _ _)) (min_le_right _ _)
        · exact ihle _ (List.mem_cons_of_mem _ hx3)

theorem foldl_max_spec (c : ℚ) (cs : List ℚ) :
    cs.foldl Max.max c ∈ c :: cs ∧ ∀ x ∈ c :: cs, x ≤ cs.foldl Max.max c := by
  induction cs generalizing c with
  | nil => simp
  | cons d cs ih =>
    obtain ⟨ihm, ihle⟩ := ih (max c d)
    have hfold : (d :: cs).foldl Max.max c = cs.foldl Max.max (max c d) := rfl
    constructor
    · rw [hfold]
      rcases List.mem_cons.mp ihm with h | h
      · rcases max_cases c d with ⟨he, _⟩ | ⟨he, _⟩
        · rw [h, he]
          exact List.mem_cons_self _ _
        · rw [h, he]
          exact List.mem_cons_of_mem _ (List.mem_cons_self _ _)
      · exact List.mem_cons_of_mem _ (List.mem_cons_of_mem _ h)
    · intro x hx
      rw [hfold]
      rcases List.mem_cons.mp hx with rfl | hx2
      · exact le_trans (le_max_left _ _) (ihle _ (List.mem_cons_self _ _))
      · rcases List.mem_cons.mp hx2 with rfl | hx3
        · exact le_trans (le_max_right _ _) (ihle _ (List.mem_cons_self _ _))
        · exact ihle _ (List.mem_cons_of_mem _ hx3)

theorem analyzeConfidence_cons_eq (w : OCRWord) (ws : List OCRWord) :
    analyzeConfidence (w :: ws) =
      { average := jsRound2 ((w.confidence :: ws.map OCRWord.confidence).sum
            / (((w.confidence :: ws.map OCRWord.confidence).length : ℚ))),
        min := jsRound2 ((ws.map OCRWord.confidence).foldl Min.min w.confidence),
        max := jsRound2 ((ws.map OCRWord.confidence).foldl Max.max w.confidence),
        lowConfidenceWords :=
          ((w :: ws).filter (fun x => decide (x.confidence < 60))).map
            (fun x => (x.text, x.confidence)),
        quality :=
          (if (w.confidence :: ws.map OCRWord.confidence).sum
                / (((w.confidence :: ws.map OCRWord.confidence).length : ℚ)) < 40 then "poor"
           else if (w.confidence :: ws.map OCRWord.confidence).sum
                / (((w.confidence :: ws.map OCRWord.confidence).length : ℚ)) < 60 then "fair"
           else if (w.confidence :: ws.map OCRWord.confidence).sum
                / (((w.confidence :: ws.map OCRWord.confidence).length : ℚ)) < 80 then "good"
           else "excellent"),
        totalWords := some (w :: ws).length } := rfl

/-- C4 (amended): for every nonempty word list, analyzeConfidence returns
the arithmetic mean rounded to two decimals as average, the true minimum
and maximum of the scores rounded to two decimals as min and max, a quality
bucket that is a step function of the unrounded mean with boundaries 80, 60
and 40, and on the empty list the unknown bucket with zeroes. -/
theorem analyzeConfidence_props (w : OCRWord) (ws : List OCRWord) :
    (analyzeConfidence (w :: ws)).average
        = jsRound2 (((w :: ws).map OCRWord.confidence).sum
            / ((((w :: ws).map OCRWord.confidence).length : ℚ)))
    ∧ (∃ m, m ∈ (w :: ws).map OCRWord.confidence
        ∧ (∀ x ∈ (w :: ws).map OCRWord.confidence, m ≤ x)
        ∧ (analyzeConfidence (w :: ws)).min = jsRound2 m)
    ∧ (∃ m, m ∈ (w :: ws).map OCRWord.confidence
        ∧ (∀ x ∈ (w :: ws).map OCRWord.confidence, x ≤ m)
        ∧ (analyzeConfidence (w :: ws)).max = jsRound2 m)
    ∧ (80 ≤ ((w :: ws).map OCRWord.confidence).sum
            / ((((w :: ws).map OCRWord.confidence).length : ℚ)) →
        (analyzeConfidence (w :: ws)).quality = "excellent")
    ∧ (60 ≤ ((w :: ws).map OCRWord.confidence).sum
            / ((((w :: ws).map OCRWord.confidence).length : ℚ)) →
        ((w :: ws).map OCRWord.confidence).sum
            / ((((w :: ws).map OCRWord.confidence).length : ℚ)) < 80 →
        (analyzeConfidence (w :: ws)).quality = "good")
    ∧ (40 ≤ ((w :: ws).map OCRWord.confidence).sum
            / ((((w :: ws).map OCRWord.confidence).length : ℚ)) →
        ((w :: ws).map OCRWord.confidence).sum
            / ((((w :: ws).map OCRWord.confidence).length : ℚ)) < 60 →
        (analyzeConfidence (w :: ws)).quality = "fair")
    ∧ (((w :: ws).map OCRWord.confidence).sum
            / ((((w :: ws).map OCRWord.confidence).length : ℚ)) < 40 →
        (analyzeConfidence (w :: ws)).quality = "poor")
    ∧ analyzeConfidence []
        = { average := 0, min := 0, max := 0, lowConfidenceWords := [],
            quality := "unknown", totalWords := none } := by
  have hq : (analyzeConfidence (w :: ws)).quality =
      (if ((w :: ws).map OCRWord.confidence).sum
            / ((((w :: ws).map OCRWord.confidence).length : ℚ)) < 40 then "poor"
       else if ((w :: ws).map OCRWord.confidence).sum
            / ((((w :: ws).map OCRWord.confidence).length : ℚ)) < 60 then "fair"
       else if ((w :: ws).map OCRWord.confidence).sum
            / ((((w :: ws).map OCRWord.confidence).length : ℚ)) < 80 then "good"
       else "excellent") := by
    rw [analyzeConfidence_cons_eq]
    rfl
  refine ⟨?_, ?_, ?_, ?_, ?_, ?_, ?_, rfl⟩
  · rw [analyzeConfidence_cons_eq]
    rfl
  · obtain ⟨hm, hle⟩ := foldl_min_spec w.confidence (ws.map OCRWord.confidence)
    refine ⟨(ws.map OCRWord.confidence).foldl Min.min w.confidence, hm, hle, ?_⟩
    rw [analyzeConfidence_cons_eq]
  · obtain ⟨hm, hle⟩ := foldl_max_spec w.confidence (ws.map OCRWord.confidence)
    refine ⟨(ws.map OCRWord.confidence).foldl Max.max w.confidence, hm, hle, ?_⟩
    rw [analyzeConfidence_cons_eq]
  · intro h80
    rw [hq, if_neg (by linarith), if_neg (by linarith), if_neg (by linarith)]
  · intro h60 h80
    rw [hq, if_neg (by linarith), if_neg (by linarith), if_pos h80]
  · intro h40 h60
    rw [hq, if_neg (by linarith), if_pos h60]
  · intro h40
    rw [hq, if_pos h40]

/-- C4 witness: the amended statement applied at a concrete one-word
list. -/
theorem analyzeConfidence_props_witness :
    (analyzeConfidence [⟨"Hello", 90⟩]).average
      = jsRound2 ((([⟨"Hello", 90⟩] : List OCRWord).map OCRWord.confidence).sum
          / (((([⟨"Hello", 90⟩] : List OCRWord).map OCRWord.confidence).length : ℚ))) :=
  (analyzeConfidence_props ⟨"Hello", 90⟩ []).1

/-- C4 counterexample: on the words with scores 90, 40 and 70 the returned
average is 6667 divided by 100, which differs from the arithmetic mean 200
divided by 3, so the returned average does not equal the arithmetic mean;
and on the single score 79.996 the returned average is 80 while the quality
is good, so the bucket is not a function with the claimed boundaries of the
returned average either. -/
theorem analyzeConfidence_claim_counterexample :
    (analyzeConfidence [⟨"Hello", 90⟩, ⟨"Wrold", 40⟩, ⟨"Again", 70⟩]).average = 6667 / 100
    ∧ ¬((6667 : ℚ) / 100 = ((90 : ℚ) + 40 + 70) / 3)
    ∧ (analyzeConfidence [⟨"word", 79996 / 1000⟩]).average = 80
    ∧ (analyzeConfidence [⟨"word", 79996 / 1000⟩]).quality = "good" := by
  refine ⟨?_, by norm_num, ?_, ?_⟩
  · simp only [analyzeConfidence_cons_eq, jsRound2, List.sum_cons, List.sum_nil]
    norm_num
  · simp only [analyzeConfidence_cons_eq, jsRound2, List.sum_cons, List.sum_nil]
    norm_num
  · simp only [analyzeConfidence_cons_eq, List.sum_cons, List.sum_nil]
    norm_num

/-- C5 counterexample: on the words with scores 90, 40 and 70 the quality
returned is not fair (the unrounded mean 200 divided by 3 is at least 60,
so the source chain of comparisons yields good). -/
theorem analyzeConfidence_90_40_70_not_fair :
    ¬((analyzeConfidence [⟨"Hello", 90⟩, ⟨"Wrold", 40⟩, ⟨"Again", 70⟩]).quality = "fair") := by
  simp only [analyzeConfidence_cons_eq, List.sum_cons, List.sum_nil]
  norm_num
  decide

/-- C5 (amended): on the words with scores 90, 40 and 70, the average is
66.67, the quality is good, and the low-confidence list contains exactly
the 40 entry. -/
theorem analyzeConfidence_90_40_70_spec :
    (analyzeConfidence [⟨"Hello", 90⟩, ⟨"Wrold", 40⟩, ⟨"Again", 70⟩]).average = 6667 / 100
    ∧ (analyzeConfidence [⟨"Hello", 90⟩, ⟨"Wrold", 40⟩, ⟨"Again", 70⟩]).quality = "good"
    ∧ (analyzeConfidence [⟨"Hello", 90⟩, ⟨"Wrold", 40⟩, ⟨"Again", 70⟩]).lowConfidenceWords
        = [("Wrold", 40)] := by
  refine ⟨?_, ?_, ?_⟩
  · simp only [analyzeConfidence_cons_eq, jsRound2, List.sum_cons, List.sum_nil]
    norm_num
  · simp only [analyzeConfidence_cons_eq, List.sum_cons, List.sum_nil]
    norm_num
  · simp only [analyzeConfidence_cons_eq, List.filter, List.map]

/-- C1: each of the four parse functions is a total function into the
result type (the try-catch conversion means no exception escapes for any
input and any behaviour of JSON.parse), and whenever JSON.parse fails on
the input the returned object is exactly the failure object with success
false and rawResponse the original text; on every other input the result is
either that failure object or a success object. -/
theorem parse_functions_no_throw {α : Type} (jsonParse : String → Except String α)
    (now s documentType err : String) (h : jsonParse s = Except.error err) :
    parseDocumentAnalysis jsonParse now s documentType = gaeParseFailure α now s
    ∧ parseFraudDetection jsonParse now s = gaeParseFailure α now s
    ∧ parseClassification jsonParse now s = gaeParseFailure α now s
    ∧ parseValidation jsonParse now s = gaeParseFailure α now s
    ∧ (gaeParseFailure α now s).success = false
    ∧ (gaeParseFailure α now s).rawResponse = some s
    ∧ (∀ t, parseDocumentAnalysis jsonParse now t documentType = gaeParseFailure α now t
        ∨ (parseDocumentAnalysis jsonParse now t documentType).success = true)
    ∧ (∀ t, parseFraudDetection jsonParse now t = gaeParseFailure α now t
        ∨ (parseFraudDetection jsonParse now t).success = true)
    ∧ (∀ t, parseClassification jsonParse now t = gaeParseFailure α now t
        ∨ (parseClassification jsonParse now t).success = true)
    ∧ (∀ t, parseValidation jsonParse now t = gaeParseFailure α now t
        ∨ (parseValidation jsonParse now t).success = true) := by
  refine ⟨?_, ?_, ?_, ?_, rfl, rfl, ?_, ?_, ?_, ?_⟩
  · rw [parseDocumentAnalysis, h]
  · rw [parseFraudDetection, h]
  · rw [parseClassification, h]
  · rw [parseValidation, h]
  · intro t
    rw [parseDocumentAnalysis]
    cases jsonParse t with
    | ok v => exact Or.inr rfl
    | error e => exact Or.inl rfl
  · intro t
    rw [parseFraudDetection]
    cases jsonParse t with
    | ok v => exact Or.inr rfl
    | error e => exact Or.inl rfl
  · intro t
    rw [parseClassification]
    cases jsonParse t with
    | ok v => exact Or.inr rfl
    | error e => exact Or.inl rfl
  · intro t
    rw [parseValidation]
    cases jsonParse t with
    | ok v => exact Or.inr rfl
    | error e => exact Or.inl rfl

/-- C1 witness: the model answered the non-JSON text; every parse function
returns the failure object carrying that exact text. -/
theorem parse_functions_no_throw_witness :
    parseClassification (fun _ => (Except.error "SyntaxError" : Except String Unit))
        "2024-01-01T00:00:00Z" "not json"
      = gaeParseFailure Unit "2024-01-01T00:00:00Z" "not json" :=
  (parse_functions_no_throw (fun _ => (Except.error "SyntaxError" : Except String Unit))
    "2024-01-01T00:00:00Z" "not json" "general" "SyntaxError" rfl).2.2.1

/-- C2 counterexample: with the client initialized and a model call that
throws a timeout error, each of the four operations itself throws the same
error (the catch logs and rethrows), instead of converting it into a
returned failure result. -/
theorem gae_ops_rethrow_counterexample :
    analyzeDocument true (Except.error "model timeout")
        (fun _ => (Except.error "e" : Except String Unit)) "2024-01-01T00:00:00Z" "general"
      = Except.error "model timeout"
    ∧ detectFraud true (Except.error "model timeout")
        (fun _ => (Except.error "e" : Except String Unit)) "2024-01-01T00:00:00Z"
      = Except.error "model timeout"
    ∧ classifyRecord true (Except.error "model timeout")
        (fun _ => (Except.error "e" : Except String Unit)) "2024-01-01T00:00:00Z"
      = Except.error "model timeout"
    ∧ validateData true (Except.error "model timeout")
        (fun _ => (Except.error "e" : Except String Unit)) "2024-01-01T00:00:00Z"
      = Except.error "model timeout" :=
  ⟨rfl, rfl, rfl, rfl⟩

/-- C2 (amended): an error thrown by the underlying model call is caught,
logged and rethrown by each of the four operations, so it propagates out of
the operation unchanged; when the model call returns content the operations
do not throw and hand the content to the parse layer, so only parse
failures are represented as returned failure objects. -/
theorem gae_ops_error_propagation {α : Type} (chat : Except String String)
    (jsonParse : String → Except String α) (now documentType e : String)
    (h : chat = Except.error e) :
    analyzeDocument true chat jsonParse now documentType = Except.error e
    ∧ detectFraud true chat jsonParse now = Except.error e
    ∧ classifyRecord true chat jsonParse now = Except.error e
    ∧ validateData true chat jsonParse now = Except.error e
    ∧ (∀ content, analyzeDocument true (Except.ok content) jsonParse now documentType
        = Except.ok (parseDocumentAnalysis jsonParse now content documentType))
    ∧ (∀ content, detectFraud true (Except.ok content) jsonParse now
        = Except.ok (parseFraudDetection jsonParse now content))
    ∧ (∀ content, classifyRecord true (Except.ok content) jsonParse now
        = Except.ok (parseClassification jsonParse now content))
    ∧ (∀ content, validateData true (Except.ok content) jsonParse now
        = Except.ok (parseValidation jsonParse now content)) := by
  subst h
  exact ⟨rfl, rfl, rfl, rfl, fun _ => rfl, fun _ => rfl, fun _ => rfl, fun _ => rfl⟩

/-- C2 witness: the amended statement applied at a concrete thrown
error. -/
theorem gae_ops_error_propagation_witness :
    analyzeDocument true (Except.error "socket hang up")
        (fun _ => (Except.error "x" : Except String Unit)) "2024-01-01T00:00:00Z" "general"
      = Except.error "socket hang up" :=
  (gae_ops_error_propagation (Except.error "socket hang up")
    (fun _ => (Except.error "x" : Except String Unit))
    "2024-01-01T00:00:00Z" "general" "socket hang up" rfl).1

theorem isAIFeatureEnabled_verification (st : AIServices) :
    isAIFeatureEnabled st "verification" = st.verification := by
  rw [isAIFeatureEnabled, if_neg (by decide), if_neg (by decide),
    if_neg (by decide), if_neg (by decide), if_neg (by decide), if_pos rfl]

theorem isAIFeatureEnabled_ocr (st : AIServices) :
    isAIFeatureEnabled st "ocr" = st.ocr := by
  rw [isAIFeatureEnabled, if_neg (by decide), if_pos rfl]

theorem isAIFeatureEnabled_documentAnalysis (st : AIServices) :
    isAIFeatureEnabled st "documentAnalysis" = st.documentAnalysis := by
  rw [isAIFeatureEnabled, if_neg (by decide), if_neg (by decide), if_pos rfl]

theorem isAIFeatureEnabled_fraudDetection (st : AIServices) :
    isAIFeatureEnabled st "fraudDetection" = st.fraudDetection := by
  rw [isAIFeatureEnabled, if_neg (by decide), if_neg (by decide),
    if_neg (by decide), if_pos rfl]

theorem isAIFeatureEnabled_classification (st : AIServices) :
    isAIFeatureEnabled st "classification" = st.classification := by
  rw [isAIFeatureEnabled, if_neg (by decide), if_neg (by decide),
    if_neg (by decide), if_neg (by decide), if_pos rfl]

theorem isAIFeatureEnabled_openai (st : AIServices) :
    isAIFeatureEnabled st "openai" = st.openai := by
  rw [isAIFeatureEnabled, if_pos rfl]

theorem initializeAIServices_completes_verification (env : AIEnv)
    (oc : InitOutcomes) (st : AIServices)
    (h2 : env.enableAIFeatures = true)
    (h1 : (initializeAIServices env oc st).1 = true) :
    ((initializeAIServices env oc st).2).verification = true := by
  rw [initializeAIServices, h2] at h1 ⊢
  simp only [Bool.not_true, Bool.false_eq_true, if_false] at h1 ⊢
  by_cases h3 : (env.openaiApiKey && oc.openaiInitThrows) = true
  · rw [if_pos h3] at h1
    simp at h1
  · rw [if_neg h3] at h1 ⊢
    by_cases h4 : (env.enableOcrProcessing && oc.ocrInitThrows) = true
    · rw [if_pos h4] at h1
      simp at h1
    · rw [if_neg h4] at h1 ⊢
      by_cases h5 : (env.enableDocumentAnalysis && oc.documentAnalysisCtorThrows) = true
      · rw [if_pos h5] at h1
        simp at h1
      · rw [if_neg h5] at h1 ⊢
        by_cases h6 : (env.enableFraudDetection && oc.fraudDetectionCtorThrows) = true
        · rw [if_pos h6] at h1
          simp at h1
        · rw [if_neg h6] at h1 ⊢
          by_cases h7 : (env.enableAutomaticClassification && oc.classificationCtorThrows) = true
          · rw [if_pos h7] at h1
            simp at h1
          · rw [if_neg h7] at h1 ⊢
            by_cases h8 : oc.verificationCtorThrows = true
            · rw [if_pos h8] at h1
              simp at h1
            · rw [if_neg h8]

/-- C10: after any run of initializeAIServices that completes without
throwing and in which AI features are globally enabled, the verification
feature reads enabled, whatever the other flags, outcomes and starting
state: the verification service is constructed unconditionally. -/
theorem verification_always_enabled (env : AIEnv) (oc : InitOutcomes)
    (st : AIServices)
    (h2 : env.enableAIFeatures = true)
    (h1 : (initializeAIServices env oc st).1 = true) :
    isAIFeatureEnabled (initializeAIServices env oc st).2 "verification" = true := by
  rw [isAIFeatureEnabled_verification]
  exact initializeAIServices_completes_verification env oc st h2 h1

/-- C10 witness: a completed run with AI features enabled and every other
flag off still reports the verification feature enabled. -/
theorem verification_always_enabled_witness :
    isAIFeatureEnabled
      (initializeAIServices ⟨true, false, false, false, false, false⟩
        ⟨false, false, false, false, false, false⟩ emptyAIServices).2
      "verification" = true :=
  verification_always_enabled ⟨true, false, false, false, false, false⟩
    ⟨false, false, false, false, false, false⟩ emptyAIServices rfl rfl

/-- C3 counterexample: AI features enabled, no OpenAI key, OCR flag true
but the OCR initialization throws, and the document analysis, fraud
detection and classification flags all true: initializeAIServices does not
complete (it rethrows), none of the remaining enabled engines is
initialized, and the failed OCR engine itself still reads as enabled
afterwards, because its variable was assigned before the failed await. -/
theorem initializeAIServices_counterexample :
    (initializeAIServices ⟨true, false, true, true, true, true⟩
        ⟨false, true, false, false, false, false⟩ emptyAIServices).1 = false
    ∧ isAIFeatureEnabled (initializeAIServices ⟨true, false, true, true, true, true⟩
        ⟨false, true, false, false, false, false⟩ emptyAIServices).2 "ocr" = true
    ∧ isAIFeatureEnabled (initializeAIServices ⟨true, false, true, true, true, true⟩
        ⟨false, true, false, false, false, false⟩ emptyAIServices).2 "documentAnalysis" = false
    ∧ isAIFeatureEnabled (initializeAIServices ⟨true, false, true, true, true, true⟩
        ⟨false, true, false, false, false, false⟩ emptyAIServices).2 "fraudDetection" = false
    ∧ isAIFeatureEnabled (initializeAIServices ⟨true, false, true, true, true, true⟩
        ⟨false, true, false, false, false, false⟩ emptyAIServices).2 "classification" = false
    ∧ isAIFeatureEnabled (initializeAIServices ⟨true, false, true, true, true, true⟩
        ⟨false, true, false, false, false, false⟩ emptyAIServices).2 "verification" = false :=
  ⟨rfl, rfl, rfl, rfl, rfl, rfl⟩

/-- C3 (amended): with AI features enabled, whenever the OCR flag is true
and the OCR engine initialization throws (the OpenAI step not having
thrown), initializeAIServices rethrows and aborts instead of degrading:
the run reports failure, every engine later in the initialization order
stays uninitialized whatever its flag, and the failed engine itself reads
as enabled afterwards (its module variable was assigned before the await
that threw). -/
theorem initializeAIServices_abort_on_ocr (key da fd cl o3 o4 o5 o6 : Bool) :
    (initializeAIServices ⟨true, key, true, da, fd, cl⟩
        ⟨false, true, o3, o4, o5, o6⟩ emptyAIServices).1 = false
    ∧ isAIFeatureEnabled (initializeAIServices ⟨true, key, true, da, fd, cl⟩
        ⟨false, true, o3, o4, o5, o6⟩ emptyAIServices).2 "ocr" = true
    ∧ isAIFeatureEnabled (initializeAIServices ⟨true, key, true, da, fd, cl⟩
        ⟨false, true, o3, o4, o5, o6⟩ emptyAIServices).2 "documentAnalysis" = false
    ∧ isAIFeatureEnabled (initializeAIServices ⟨true, key, true, da, fd, cl⟩
        ⟨false, true, o3, o4, o5, o6⟩ emptyAIServices).2 "fraudDetection" = false
    ∧ isAIFeatureEnabled (initializeAIServices ⟨true, key, true, da, fd, cl⟩
        ⟨false, true, o3, o4, o5, o6⟩ emptyAIServices).2 "classification" = false
    ∧ isAIFeatureEnabled (initializeAIServices ⟨true, key, true, da, fd, cl⟩
        ⟨false, true, o3, o4, o5, o6⟩ emptyAIServices).2 "verification" = false := by
  cases key <;> exact ⟨rfl, rfl, rfl, rfl, rfl, rfl⟩

theorem batchEntryFor_filename (st : AIServices) (processType : String)
    (ocrCall analyzeCall : BatchFile → Except String BatchItemResult)
    (file : BatchFile) :
    (batchEntryFor st processType ocrCall analyzeCall file).filename
      = file.originalname := by
  rw [batchEntryFor]
  cases batchItemStep st processType ocrCall analyzeCall file <;> rfl

theorem batchEntryFor_congr (st : AIServices) (processType : String)
    (ocrCall analyzeCall oc2 an2 : BatchFile → Except String BatchItemResult)
    (file : BatchFile) (hoc : oc2 file = ocrCall file)
    (han : an2 file = analyzeCall file) :
    batchEntryFor st processType oc2 an2 file
      = batchEntryFor st processType ocrCall analyzeCall file := by
  rw [batchEntryFor, batchEntryFor, batchItemStep, batchItemStep, hoc, han]

/-- C6 counterexample: with zero input files the batch route does not
return a results array with zero entries; it answers 400 Bad Request. -/
theorem batchProcess_empty_counterexample :
    batchProcessHandler emptyAIServices "ocr" (fun _ => Except.error "e")
        (fun _ => Except.error "e") []
      = BatchResponse.badRequest "No documents provided" := rfl

/-- C6 (amended): for every nonempty list of input files and any process
type, the batch route answers success with exactly one entry per input
file, totalFiles the input count, entries in input order (the entry at
index i carries the name of the file at index i), and with per-item
isolation: the entry at index i depends only on how the processing calls
behave on the file at index i, however they behave (including throwing) on
every other file. -/
theorem batchProcess_spec (st : AIServices) (processType : String)
    (ocrCall analyzeCall : BatchFile → Except String BatchItemResult)
    (files : List BatchFile) (h : files ≠ []) :
    ∃ pl, batchProcessHandler st processType ocrCall analyzeCall files
        = BatchResponse.ok pl
    ∧ pl.results.length = files.length
    ∧ pl.totalFiles = files.length
    ∧ pl.processType = processType
    ∧ (∀ i : Nat, (pl.results[i]?).map BatchEntry.filename
          = (files[i]?).map BatchFile.originalname)
    ∧ (∀ (oc2 an2 : BatchFile → Except String BatchItemResult) (i : Nat) (f : BatchFile),
        files[i]? = some f → oc2 f = ocrCall f → an2 f = analyzeCall f →
        ∃ pl2, batchProcessHandler st processType oc2 an2 files = BatchResponse.ok pl2
          ∧ pl2.results[i]? = pl.results[i]?) := by
  rcases files with _ | ⟨f, fs⟩
  · exact absurd rfl h
  · refine ⟨BatchPayload.mk
        ((f :: fs).map (batchEntryFor st processType ocrCall analyzeCall))
        (f :: fs).length processType,
      rfl, List.length_map _ _, rfl, rfl, ?_, ?_⟩
    · intro i
      rw [List.getElem?_map (batchEntryFor st processType ocrCall analyzeCall) (f :: fs) i]
      cases (f :: fs)[i]? with
      | none => rfl
      | some x => simp [batchEntryFor_filename]
    · intro oc2 an2 i g hg hoc han
      refine ⟨BatchPayload.mk ((f :: fs).map (batchEntryFor st processType oc2 an2))
          (f :: fs).length processType, rfl, ?_⟩
      rw [List.getElem?_map (batchEntryFor st processType oc2 an2) (f :: fs) i,
        List.getElem?_map (batchEntryFor st processType ocrCall analyzeCall) (f :: fs) i,
        hg]
      simp only [Option.map_some']
      rw [batchEntryFor_congr st processType ocrCall analyzeCall oc2 an2 g hoc han]

/-- C6 witness: the amended statement applied to a concrete one-file
batch. -/
theorem batchProcess_spec_witness :
    ∃ pl, batchProcessHandler emptyAIServices "ocr" (fun _ => Except.error "boom")
        (fun _ => Except.error "boom") [⟨"uploads/a.png", "a.png"⟩]
        = BatchResponse.ok pl
    ∧ pl.results.length = ([⟨"uploads/a.png", "a.png"⟩] : List BatchFile).length
    ∧ pl.totalFiles = ([⟨"uploads/a.png", "a.png"⟩] : List BatchFile).length
    ∧ pl.processType = "ocr"
    ∧ (∀ i : Nat, (pl.results[i]?).map BatchEntry.filename
          = (([⟨"uploads/a.png", "a.png"⟩] : List BatchFile)[i]?).map BatchFile.originalname)
    ∧ (∀ (oc2 an2 : BatchFile → Except String BatchItemResult) (i : Nat) (f : BatchFile),
        ([⟨"uploads/a.png", "a.png"⟩] : List BatchFile)[i]? = some f →
        oc2 f = (fun _ => Except.error "boom") f →
        an2 f = (fun _ => Except.error "boom") f →
        ∃ pl2, batchProcessHandler emptyAIServices "ocr" oc2 an2
            [⟨"uploads/a.png", "a.png"⟩] = BatchResponse.ok pl2
          ∧ pl2.results[i]? = pl.results[i]?) :=
  batchProcess_spec emptyAIServices "ocr" (fun _ => Except.error "boom")
    (fun _ => Except.error "boom") [⟨"uploads/a.png", "a.png"⟩] (by decide)

/-- C8: evaluation of the registry health check at the failing input. The
OCR probe never throws (OCRService.healthCheck catches internally and
returns false, here for a cleaned-up worker), yet checkAIServicesHealth
discards the returned Boolean: with only OCR enabled and its probe
returning false, it marks the OCR service healthy and the aggregate
healthy, while the health route handler given the very same probe outcome
reports unhealthy and degrades the aggregate. -/
theorem checkAIServicesHealth_ignores_probe_result :
    ocrHealthCheck false false (Except.error "no worker") = false
    ∧ (checkAIServicesHealth ⟨false, true, false, false, false, true⟩
        (Except.ok true)
        (Except.ok (ocrHealthCheck false false (Except.error "no worker")))).status
      = "healthy"
    ∧ (checkAIServicesHealth ⟨false, true, false, false, false, true⟩
        (Except.ok true)
        (Except.ok (ocrHealthCheck false false (Except.error "no worker")))).ocr
      = some { status := "healthy" }
    ∧ (healthRouteHandler ⟨false, true, false, false, false, true⟩
        (Except.ok true)
        (Except.ok (ocrHealthCheck false false (Except.error "no worker")))).status
      = "degraded"
    ∧ (healthRouteHandler ⟨false, true, false, false, false, true⟩
        (Except.ok true)
        (Except.ok (ocrHealthCheck false false (Except.error "no worker")))).ocr
      = some { status := "unhealthy" } :=
  ⟨rfl, rfl, rfl, rfl, rfl⟩

/-- C9 counterexample: the engine starts with stored language eng and the
worker loaded with eng; extracting with the language option amh reloads the
worker (its loaded model becomes amh) but leaves the stored current
language at eng, so a subsequent observation of the engine state still
reports eng and not the requested amh. -/
theorem extractTextFromImage_language_counterexample :
    (extractTextFromImage ⟨some "eng", true, ["eng", "amh"], "eng"⟩ true
        (some "amh") (Except.ok ⟨"hello", 90, []⟩)).2.defaultLanguage = "eng"
    ∧ (extractTextFromImage ⟨some "eng", true, ["eng", "amh"], "eng"⟩ true
        (some "amh") (Except.ok ⟨"hello", 90, []⟩)).2.workerLang = some "amh"
    ∧ (getServiceInfo (extractTextFromImage ⟨some "eng", true, ["eng", "amh"], "eng"⟩
        true (some "amh") (Except.ok ⟨"hello", 90, []⟩)).2).currentLanguage = "eng"
    ∧ ¬((getServiceInfo (extractTextFromImage ⟨some "eng", true, ["eng", "amh"], "eng"⟩
        true (some "amh") (Except.ok ⟨"hello", 90, []⟩)).2).currentLanguage = "amh") := by
  refine ⟨rfl, rfl, rfl, ?_⟩
  intro h
  exact absurd h (by decide)

/-- C9 (amended): when the engine is initialized, the file exists, the
requested language differs from the stored default language and the worker
is present, extractTextFromImage reloads the worker model — the worker
state afterwards holds the requested language — but never writes the
stored default language, which getServiceInfo keeps reporting as
currentLanguage, whatever the recognition outcome; only changeLanguage
updates the stored language. -/
theorem extractTextFromImage_keeps_stored_language (st : OCRState)
    (lang w : String) (recognize : Except String RecognizeData)
    (st2 : OCRState)
    (h1 : st.isInitialized = true)
    (h2 : lang ≠ st.defaultLanguage)
    (h3 : st.workerLang = some w)
    (h4 : changeLanguage st lang = Except.ok st2) :
    (extractTextFromImage st true (some lang) recognize).2.defaultLanguage
        = st.defaultLanguage
    ∧ (extractTextFromImage st true (some lang) recognize).2.workerLang = some lang
    ∧ (getServiceInfo (extractTextFromImage st true (some lang) recognize).2).currentLanguage
        = st.defaultLanguage
    ∧ st2.defaultLanguage = lang
    ∧ st2.workerLang = some lang := by
  have hext : (extractTextFromImage st true (some lang) recognize).2
      = { st with workerLang := some lang } := by
    rw [extractTextFromImage, h1]
    simp only [Bool.not_true, Bool.false_eq_true, if_false, Bool.not_false, if_true]
    have hget : (some lang).getD st.defaultLanguage = lang := rfl
    rw [hget, if_pos h2, h3]
    cases recognize <;> rfl
  have hchg : st2 = { st with workerLang := some lang, defaultLanguage := lang } := by
    rw [changeLanguage, h3] at h4
    cases hsup : st.supportedLanguages.contains lang with
    | false =>
      rw [hsup] at h4
      simp at h4
    | true =>
      rw [hsup] at h4
      simp only [Bool.not_true, Bool.false_eq_true, if_false] at h4
      exact (Except.ok.injEq _ _ ▸ h4).symm
  refine ⟨by rw [hext], by rw [hext], by rw [hext, getServiceInfo], by rw [hchg], by rw [hchg]⟩

/-- C9 witness: the amended statement applied at the concrete eng-to-amh
switch. -/
theorem extractTextFromImage_keeps_stored_language_witness :
    (extractTextFromImage ⟨some "eng", true, ["eng", "amh"], "eng"⟩ true
        (some "amh") (Except.ok ⟨"t", 1, []⟩)).2.defaultLanguage = "eng" :=
  (extractTextFromImage_keeps_stored_language
    ⟨some "eng", true, ["eng", "amh"], "eng"⟩ "amh" "eng" (Except.ok ⟨"t", 1, []⟩)
    ⟨some "amh", true, ["eng", "amh"], "amh"⟩ rfl (by decide) rfl rfl).1
